import Mathlib

/-!
Verification of the credential-secured multi-provider data-access core of the
integrations dashboard.  The TypeScript source is shallowly embedded: pure
helpers become Lean functions, route handlers become functions from their
request environment (identity, rate-limit state, stored credential record,
request body, backend outcome) to an instrumented outcome recording the HTTP
status, the envelope error code, and how many remote backend calls were made.

The AES-256-CBC block cipher provided by the Node `crypto` library is external
to the repository; it is abstracted as a pair of functions `cEnc`/`cDec`
(key → iv → data → data) whose inverse property is the library's contract and
appears as a hypothesis.  Everything around it — the random-IV `iv:ciphertext`
hex format, the `split(":")` parsing, the falsy-value short-circuits — is
translated from `lib/integrations/encryption.ts` (src/unnamed/part_018).
Plaintext strings are represented by their UTF-8 byte sequences (bytes as
`Nat < 256`), computed by an explicit encoder.
-/

/-! ### Byte/hex primitives (Node `Buffer` hex round-trip, `lib/integrations/encryption.ts`) -/

/-- Lowercase hex digit for a nibble, as produced by `Buffer.toString("hex")`. -/
def hexDigitChar (n : Nat) : Char :=
  if n < 10 then Char.ofNat (48 + n) else Char.ofNat (87 + n)

/-- Two hex chars of one byte. -/
def byteToHexChars (b : Nat) : List Char :=
  [hexDigitChar (b / 16), hexDigitChar (b % 16)]

/-- Hex rendering `Buffer.toString("hex")` on a byte sequence. -/
def bytesToHex (bs : List Nat) : List Char := bs.flatMap byteToHexChars

/-- Numeric value of one hex character (`0-9`, `a-f`, `A-F`). -/
def hexCharVal (c : Char) : Nat :=
  if 48 ≤ c.toNat ∧ c.toNat ≤ 57 then c.toNat - 48
  else if 97 ≤ c.toNat ∧ c.toNat ≤ 102 then c.toNat - 87
  else if 65 ≤ c.toNat ∧ c.toNat ≤ 70 then c.toNat - 55
  else 0

/-- Hex parsing `Buffer.from(s, "hex")`: consume hex characters two at a time. -/
def hexToBytes : List Char → List Nat
  | c1 :: c2 :: rest => (hexCharVal c1 * 16 + hexCharVal c2) :: hexToBytes rest
  | _ => []

/-- JavaScript `String.prototype.split(":")` over the character list. -/
def splitOnColon (cs : List Char) : List (List Char) := cs.splitOn ':'

/-- JavaScript `String.prototype.trim()`. -/
def jsTrim (cs : List Char) : List Char :=
  ((cs.dropWhile Char.isWhitespace).reverse.dropWhile Char.isWhitespace).reverse

/-- JavaScript falsiness of a nullable string field (`!x` on `string | null`):
true for `null`/`undefined` and for the empty string. -/
def jsFalsyStr (v : Option String) : Bool :=
  match v with
  | none => true
  | some s => s = ""

/-- UTF-8 encoding of one character (what `cipher.update(text, "utf8")` reads). -/
def utf8Encode (c : Char) : List Nat :=
  let n := c.toNat
  if n < 128 then [n]
  else if n < 2048 then [192 + n / 64, 128 + n % 64]
  else if n < 65536 then [224 + n / 4096, 128 + (n / 64) % 64, 128 + n % 64]
  else [240 + n / 262144, 128 + (n / 4096) % 64, 128 + (n / 64) % 64, 128 + n % 64]

/-- UTF-8 byte sequence of a string. -/
def utf8Bytes (s : String) : List Nat := s.data.flatMap utf8Encode

/-! ### Secret Cipher (`encrypt` / `decrypt`, src/unnamed/part_018 lines 25-67) -/

/-- The source `encrypt`: AES-256-CBC with a per-call IV; output `iv_hex:ciphertext_hex`.
The cipher core `cEnc` (what `crypto.createCipheriv(..).update/final` computes)
is a parameter. -/
def encryptWith (cEnc : List Nat → List Nat → List Nat → List Nat)
    (key iv textBytes : List Nat) : String :=
  String.mk (bytesToHex iv ++ ':' :: bytesToHex (cEnc key iv textBytes))

/-- The source `decrypt`: split `iv:encryptedData` on `":"`, reject a missing/empty part
(`"Invalid encrypted data format"`), then run the decipher core `cDec`. -/
def decryptWith (cDec : List Nat → List Nat → List Nat → List Nat)
    (key : List Nat) (hash : String) : Except String (List Nat) :=
  let parts := splitOnColon hash.data
  let ivHex := parts.headD []
  let encryptedData := (parts.drop 1).headD []
  if ivHex = [] ∨ encryptedData = [] then
    Except.error "Invalid encrypted data format"
  else
    Except.ok (cDec key (hexToBytes ivHex) (hexToBytes encryptedData))

/-- The source `encrypt` applied to a plaintext string (UTF-8 bytes of the text). -/
def encryptStr (cEnc : List Nat → List Nat → List Nat → List Nat)
    (key iv : List Nat) (text : String) : String :=
  encryptWith cEnc key iv (utf8Bytes text)

/-- The source `encryptOptional` (src/unnamed/part_018 lines 72-75): JavaScript-falsy
values (`null`, `undefined`, `""`) map to `null`, anything else is encrypted. -/
def encryptOptional (cEnc : List Nat → List Nat → List Nat → List Nat)
    (key iv : List Nat) (value : Option String) : Option String :=
  match value with
  | none => none
  | some v => if v = "" then none else some (encryptStr cEnc key iv v)

/-- The source `decryptOptional` (src/unnamed/part_018 lines 80-83). -/
def decryptOptional (cDec : List Nat → List Nat → List Nat → List Nat)
    (key : List Nat) (hash : Option String) : Option (Except String (List Nat)) :=
  match hash with
  | none => none
  | some h => if h = "" then none else some (decryptWith cDec key h)

/-- A concrete stand-in cipher core used to instantiate the library contract
in witnesses: append a sentinel byte. -/
def concatSeven (_key _iv d : List Nat) : List Nat := d ++ [7]

/-- The matching stand-in decipher core: drop the sentinel byte. -/
def dropLastCore (_key _iv d : List Nat) : List Nat := d.dropLast

/-! ### Access Guard (`lib/integrations/auth-check.ts`, embedded at the end of
src/src/app/dashboard/integrations/convex/_components/project-explorer.tsx) -/

/-- One entry of the in-memory `rateLimitStore`, keyed by `userId:provider`. -/
structure RLEntry where
  count : Nat
  resetAt : Nat
deriving DecidableEq, Repr

def RATE_LIMIT_MAX : Nat := 100

def RATE_LIMIT_WINDOW_MS : Nat := 60 * 1000

/-- The source `checkRateLimit` for one `(userId, provider)` key, as a transition on that
key's store entry: returns whether the operation may proceed and the updated
entry.  `now` is `Date.now()` in milliseconds. -/
def rlStep (now : Nat) (entry : Option RLEntry) : Bool × Option RLEntry :=
  match entry with
  | none => (true, some ⟨1, now + RATE_LIMIT_WINDOW_MS⟩)
  | some e =>
    if e.resetAt < now then (true, some ⟨1, now + RATE_LIMIT_WINDOW_MS⟩)
    else if RATE_LIMIT_MAX ≤ e.count then (false, some e)
    else (true, some ⟨e.count + 1, e.resetAt⟩)

/-- A sequence of `checkRateLimit` calls at the given times, collecting the
returned booleans and the final store entry. -/
def runRL : List Nat → Option RLEntry → List Bool × Option RLEntry
  | [], st => ([], st)
  | t :: rest, st =>
    let r := rlStep t st
    let rr := runRL rest r.2
    (r.1 :: rr.1, rr.2)

/-- The source `getCurrentUserId`: reads the `x-user-id` header and falls back to the
mock `"demo-user-id"` via `??` when the header is absent (null). -/
def getCurrentUserId (headerUserId : Option String) : Option String :=
  match headerUserId with
  | none => some "demo-user-id"
  | some v => some v

/-- The `IntegrationError` class (code + message). -/
structure IntegrationError where
  code : String
  message : String
deriving DecidableEq, Repr

/-- The stored `UserIntegration` credential record, restricted to the fields
the verified operations read.  Secret fields hold ciphertext. -/
structure UserIntegration where
  isActive : Bool
  supabaseUrl : Option String
  supabaseAnonKey : Option String
  supabaseServiceKey : Option String
  neonConnectionString : Option String
  tursoUrl : Option String
  tursoAuthToken : Option String
deriving DecidableEq, Repr

/-- The source `validateIntegrationAccess(userId, provider)`: the result of the
`db.userIntegration.findUnique` lookup for `(userId, provider)` is the
`record` argument.  Throws `INTEGRATION_NOT_FOUND` when no record exists and
`INTEGRATION_INACTIVE` when `isActive` is false. -/
def validateIntegrationAccess (provider : String) (record : Option UserIntegration) :
    Except IntegrationError UserIntegration :=
  match record with
  | none =>
    Except.error ⟨"INTEGRATION_NOT_FOUND",
      "No " ++ provider ++ " integration found for this user"⟩
  | some integration =>
    if !integration.isActive then
      Except.error ⟨"INTEGRATION_INACTIVE", provider ++ " integration is inactive"⟩
    else
      Except.ok integration

/-- The source `logIntegrationOperation`: the `db.userIntegrationLog.create` outcome is
the argument; the surrounding `try/catch` swallows any failure
(`console.error` only), so the audit step itself never throws. -/
def logIntegrationOperation (dbCreate : Except String Unit) : Except String Unit :=
  match dbCreate with
  | Except.ok _ => Except.ok ()
  | Except.error _ => Except.ok ()

/-! ### Route handlers, instrumented for remote backend calls -/

/-- Outcome of one route handler: HTTP status, envelope error code (`none` on
success), and the number of remote backend calls performed. -/
structure RouteOutcome where
  status : Nat
  errorCode : Option String
  remoteCalls : Nat
deriving DecidableEq, Repr

/-- The write-class test shared by the supabase raw-SQL handlers
(src/unnamed/part_008 lines 55-57, part_016 lines 43-48, part_017 lines
49-51): a statement is write-class when its trimmed upper-cased text starts
with none of `SELECT`, `WITH`, `EXPLAIN`. -/
def isWriteQuery (trimmedQuery : List Char) : Bool :=
  !(List.isPrefixOf "SELECT".data trimmedQuery) &&
  !(List.isPrefixOf "WITH".data trimmedQuery) &&
  !(List.isPrefixOf "EXPLAIN".data trimmedQuery)

/-- Handler `POST /api/integrations/neon/sql` (src/src/app/api/integrations/neon/sql/route.ts).
`uid` is the value `getCurrentUserId()` returned; `record` the credential
lookup result; `query` the `query` field of the JSON body (`none` = absent);
`backend` the outcome of the single `sql` remote call (row count on success);
`auditDb` the audit-insert outcome.  Thrown errors (validation, missing
connection string, backend failure) land in the route's `catch`, which
answers `QUERY_ERROR` / 400.  Note this handler has no write-gating. -/
def neonSqlPOST (uid : Option String) (now : Nat) (rl : Option RLEntry)
    (record : Option UserIntegration) (query : Option String)
    (backend : Except String Nat) (auditDb : Except String Unit) : RouteOutcome :=
  match uid with
  | none => ⟨401, some "UNAUTHORIZED", 0⟩
  | some _ =>
    if !(rlStep now rl).1 then ⟨429, some "RATE_LIMITED", 0⟩
    else
      match validateIntegrationAccess "neon" record with
      | Except.error _ => ⟨400, some "QUERY_ERROR", 0⟩
      | Except.ok integration =>
        match integration.neonConnectionString with
        | none => ⟨400, some "QUERY_ERROR", 0⟩
        | some _ =>
          match query with
          | none => ⟨400, some "INVALID_REQUEST", 0⟩
          | some q =>
            if jsTrim q.data = [] then ⟨400, some "INVALID_REQUEST", 0⟩
            else
              match backend with
              | Except.error _ => ⟨400, some "QUERY_ERROR", 1⟩
              | Except.ok _ =>
                match logIntegrationOperation auditDb with
                | Except.error _ => ⟨400, some "QUERY_ERROR", 1⟩
                | Except.ok _ => ⟨200, none, 1⟩

/-- Handler `POST` of the supabase raw-SQL route (src/unnamed/part_016): identity,
rate limit, access validation, then the client construction — before the
write-gate, `createSupabaseClientFromIntegration` throws "Supabase
credentials not configured" when `supabaseUrl` or `supabaseAnonKey` is falsy
(landing in this route's `catch` as `INTERNAL_ERROR` / 500) — then the
write-gate: a write-class statement without a stored service key is refused
with `UNAUTHORIZED` / 403 before the `client.rpc("exec_sql")` remote call.
Other thrown errors also land in the `catch` (`INTERNAL_ERROR` / 500); an
rpc error is audited and answered `QUERY_ERROR` / 400. -/
def supabaseSqlPOST (uid : Option String) (now : Nat) (rl : Option RLEntry)
    (record : Option UserIntegration) (query : Option String)
    (backend : Except String Nat) (auditDb : Except String Unit) : RouteOutcome :=
  match uid with
  | none => ⟨401, some "UNAUTHORIZED", 0⟩
  | some _ =>
    if !(rlStep now rl).1 then ⟨429, some "RATE_LIMITED", 0⟩
    else
      match validateIntegrationAccess "supabase" record with
      | Except.error _ => ⟨500, some "INTERNAL_ERROR", 0⟩
      | Except.ok integration =>
        let hasServiceKey := integration.supabaseServiceKey.isSome
        if jsFalsyStr integration.supabaseUrl || jsFalsyStr integration.supabaseAnonKey then
          ⟨500, some "INTERNAL_ERROR", 0⟩
        else
        match query with
        | none => ⟨400, some "INVALID_REQUEST", 0⟩
        | some q =>
          if jsTrim q.data = [] then ⟨400, some "INVALID_REQUEST", 0⟩
          else
            if !hasServiceKey && isWriteQuery ((jsTrim q.data).map Char.toUpper) then
              ⟨403, some "UNAUTHORIZED", 0⟩
            else
              match backend with
              | Except.error _ =>
                match logIntegrationOperation auditDb with
                | Except.error _ => ⟨500, some "INTERNAL_ERROR", 1⟩
                | Except.ok _ => ⟨400, some "QUERY_ERROR", 1⟩
              | Except.ok _ =>
                match logIntegrationOperation auditDb with
                | Except.error _ => ⟨500, some "INTERNAL_ERROR", 1⟩
                | Except.ok _ => ⟨200, none, 1⟩

/-- Handler `POST /api/integrations/turso/tables/[tableName]` (row insert, lines
129-169 of that route): identity, then access validation — this handler
performs no rate-limit check, so the ambient limiter state `now`/`rl` is a
parameter it never consults.  The insert strips `id` and `created_at` keys
from the body, then executes one remote `INSERT`. -/
def tursoInsertPOST (uid : Option String) (now : Nat) (rl : Option RLEntry)
    (record : Option UserIntegration) (body : List (String × String))
    (backend : Except String Nat) (auditDb : Except String Unit) : RouteOutcome :=
  match uid with
  | none => ⟨401, some "UNAUTHORIZED", 0⟩
  | some _ =>
    let _ := (now, rl)
    match validateIntegrationAccess "turso" record with
    | Except.error _ => ⟨500, some "INTERNAL_ERROR", 0⟩
    | Except.ok integration =>
      match integration.tursoUrl, integration.tursoAuthToken with
      | none, _ => ⟨500, some "INTERNAL_ERROR", 0⟩
      | _, none => ⟨500, some "INTERNAL_ERROR", 0⟩
      | some _, some _ =>
        let _ := (body.map Prod.fst).filter (fun k => k ≠ "id" && k ≠ "created_at")
        match backend with
        | Except.error _ => ⟨500, some "INTERNAL_ERROR", 1⟩
        | Except.ok _ =>
          match logIntegrationOperation auditDb with
          | Except.error _ => ⟨500, some "INTERNAL_ERROR", 1⟩
          | Except.ok _ => ⟨200, none, 1⟩

/-- Pagination parameters of `GET /api/integrations/turso/tables/[tableName]`
(lines 36-42): `page` defaults to 1 and is used as parsed; `limit` defaults
to 25 and is clamped by `Math.min(·, 100)`; the offset is `(page-1)*limit`.
Returns `(page, limit, offset)` as sent to the backend. -/
def tursoQueryParams (pageParam limitParam : Option Int) : Int × Int × Int :=
  let page := pageParam.getD 1
  let limit := min (limitParam.getD 25) 100
  (page, limit, (page - 1) * limit)

/-! ### OAuth callback (`GET /api/integrations/convex/oauth/callback/route.ts`) -/

/-- Outcome of the OAuth callback: the `error` query parameter of the
redirect (`none` means `connected=true`), the number of token-exchange calls
performed, and the state cookie after the request. -/
structure CallbackOutcome where
  redirectError : Option String
  exchangeCalls : Nat
  cookieAfter : Option String
deriving DecidableEq, Repr

/-- The convex OAuth callback.  `errParam`, `code`, `stateParam` are the query
parameters; `cookie` the `convex_oauth_state` cookie value; `uid` the
`getCurrentUserId()` result; `exchange` the token-exchange outcome; `upsert`
the credential-store upsert outcome.  The state check
(`!storedState || storedState !== state`) redirects with `invalid_state`;
the cookie is deleted only after that check passes. -/
def convexCallbackGET (errParam code stateParam : Option String)
    (cookie : Option String) (uid : Option String)
    (exchange : Except String Unit) (upsert : Except String Unit) : CallbackOutcome :=
  match errParam with
  | some e => ⟨some e, 0, cookie⟩
  | none =>
    match code, stateParam with
    | none, _ => ⟨some "missing_params", 0, cookie⟩
    | _, none => ⟨some "missing_params", 0, cookie⟩
    | some _, some st =>
      match cookie with
      | none => ⟨some "invalid_state", 0, none⟩
      | some storedState =>
        if storedState = "" ∨ storedState ≠ st then
          ⟨some "invalid_state", 0, some storedState⟩
        else
          match uid with
          | none => ⟨some "unauthorized", 0, none⟩
          | some _ =>
            match exchange with
            | Except.error m => ⟨some m, 1, none⟩
            | Except.ok _ =>
              match upsert with
              | Except.error m => ⟨some m, 1, none⟩
              | Except.ok _ => ⟨none, 1, none⟩

/-! ### Helper lemmas: hex coding and `split(":")` -/

theorem hexCharVal_hexDigitChar (n : Nat) (h : n < 16) :
    hexCharVal (hexDigitChar n) = n := by
  have h16 : ∀ m ∈ List.range 16, hexCharVal (hexDigitChar m) = m := by decide
  exact h16 n (List.mem_range.mpr h)

theorem hexDigitChar_ne_colon (n : Nat) (h : n < 16) : hexDigitChar n ≠ ':' := by
  have h16 : ∀ m ∈ List.range 16, hexDigitChar m ≠ ':' := by decide
  exact h16 n (List.mem_range.mpr h)

theorem hexToBytes_byteToHexChars (b : Nat) (hb : b < 256) (rest : List Char) :
    hexToBytes (byteToHexChars b ++ rest) = b :: hexToBytes rest := by
  have h1 : b / 16 < 16 := by omega
  have h2 : b % 16 < 16 := by omega
  simp only [byteToHexChars, List.cons_append, List.nil_append, hexToBytes,
    hexCharVal_hexDigitChar _ h1, hexCharVal_hexDigitChar _ h2]
  congr 1
  omega

theorem hexToBytes_bytesToHex (bs : List Nat) (hb : ∀ b ∈ bs, b < 256) :
    hexToBytes (bytesToHex bs) = bs := by
  induction bs with
  | nil => rfl
  | cons b rest ih =>
    have hb' : b < 256 := hb b (List.mem_cons_self b rest)
    simp only [bytesToHex, List.flatMap_cons]
    rw [hexToBytes_byteToHexChars b hb']
    simp only [bytesToHex] at ih
    rw [ih (fun x hx => hb x (List.mem_cons_of_mem _ hx))]

theorem colon_not_mem_bytesToHex (bs : List Nat) (hb : ∀ b ∈ bs, b < 256) :
    ':' ∉ bytesToHex bs := by
  intro hmem
  simp only [bytesToHex, List.mem_flatMap] at hmem
  obtain ⟨b, hbmem, hcmem⟩ := hmem
  have hblt : b < 256 := hb b hbmem
  have h1 : b / 16 < 16 := by omega
  have h2 : b % 16 < 16 := by omega
  simp only [byteToHexChars, List.mem_cons, List.not_mem_nil, or_false] at hcmem
  rcases hcmem with h | h
  · exact hexDigitChar_ne_colon _ h1 h.symm
  · exact hexDigitChar_ne_colon _ h2 h.symm

theorem bytesToHex_length (bs : List Nat) : (bytesToHex bs).length = 2 * bs.length := by
  induction bs with
  | nil => rfl
  | cons b rest ih =>
    simp only [bytesToHex, List.flatMap_cons, List.length_append, byteToHexChars,
      List.length_cons, List.length_nil, List.length_cons] at *
    omega

theorem bytesToHex_ne_nil (bs : List Nat) (h : bs ≠ []) : bytesToHex bs ≠ [] := by
  cases bs with
  | nil => exact absurd rfl h
  | cons b rest => simp [bytesToHex, byteToHexChars]

theorem splitOnColon_append (l1 l2 : List Char) (h : ':' ∉ l1) :
    splitOnColon (l1 ++ ':' :: l2) = l1 :: splitOnColon l2 := by
  unfold splitOnColon
  simp only [List.splitOn]
  rw [List.splitOnP_first]
  · intro x hx
    simp only [beq_iff_eq]
    exact fun hc => h (hc ▸ hx)
  · simp

theorem splitOnColon_no_colon (l : List Char) (h : ':' ∉ l) :
    splitOnColon l = [l] := by
  unfold splitOnColon
  simp only [List.splitOn]
  apply List.splitOnP_eq_single
  intro x hx
  simp only [beq_iff_eq]
  exact fun hc => h (hc ▸ hx)

theorem decryptWith_encryptWith (cEnc cDec : List Nat → List Nat → List Nat → List Nat)
    (key iv text : List Nat)
    (hinv : cDec key iv (cEnc key iv text) = text)
    (hiv : iv ≠ []) (hivb : ∀ b ∈ iv, b < 256)
    (hct : cEnc key iv text ≠ []) (hctb : ∀ b ∈ cEnc key iv text, b < 256) :
    decryptWith cDec key (encryptWith cEnc key iv text) = Except.ok text := by
  unfold decryptWith encryptWith
  rw [show (String.mk (bytesToHex iv ++ ':' :: bytesToHex (cEnc key iv text))).data
        = bytesToHex iv ++ ':' :: bytesToHex (cEnc key iv text) from rfl]
  rw [splitOnColon_append _ _ (colon_not_mem_bytesToHex iv hivb),
      splitOnColon_no_colon _ (colon_not_mem_bytesToHex _ hctb)]
  simp only [List.headD, List.drop]
  rw [if_neg]
  · rw [hexToBytes_bytesToHex iv hivb, hexToBytes_bytesToHex _ hctb, hinv]
  · push_neg
    exact ⟨bytesToHex_ne_nil iv hiv, bytesToHex_ne_nil _ hct⟩

/-! ### Claim C7 -/

/-- C7: under a fixed key, decrypting an encryption returns the plaintext
(modeled as its byte sequence), and two calls with distinct random IVs yield
different `iv_hex:ciphertext_hex` strings while both decrypt back to the
plaintext.  The AES-256-CBC core is abstracted as `cEnc`/`cDec` with the
library's inverse contract as hypothesis; IVs are the 16 random bytes of
`crypto.randomBytes(IV_LENGTH)` and ciphertexts are nonempty byte sequences
(CBC output is a positive multiple of the block size). -/
theorem encrypt_decrypt_roundtrip
    (cEnc cDec : List Nat → List Nat → List Nat → List Nat)
    (hinv : ∀ k iv d, cDec k iv (cEnc k iv d) = d)
    (key text iv1 iv2 : List Nat)
    (hiv1 : iv1.length = 16) (hiv2 : iv2.length = 16)
    (hivb1 : ∀ b ∈ iv1, b < 256) (hivb2 : ∀ b ∈ iv2, b < 256)
    (hne : iv1 ≠ iv2)
    (hct1 : cEnc key iv1 text ≠ []) (hct2 : cEnc key iv2 text ≠ [])
    (hctb1 : ∀ b ∈ cEnc key iv1 text, b < 256)
    (hctb2 : ∀ b ∈ cEnc key iv2 text, b < 256) :
    decryptWith cDec key (encryptWith cEnc key iv1 text) = Except.ok text ∧
    decryptWith cDec key (encryptWith cEnc key iv2 text) = Except.ok text ∧
    encryptWith cEnc key iv1 text ≠ encryptWith cEnc key iv2 text := by
  have hiv1ne : iv1 ≠ [] := by intro h; rw [h] at hiv1; exact absurd hiv1 (by decide)
  have hiv2ne : iv2 ≠ [] := by intro h; rw [h] at hiv2; exact absurd hiv2 (by decide)
  refine ⟨decryptWith_encryptWith cEnc cDec key iv1 text (hinv key iv1 text)
      hiv1ne hivb1 hct1 hctb1,
    decryptWith_encryptWith cEnc cDec key iv2 text (hinv key iv2 text)
      hiv2ne hivb2 hct2 hctb2, ?_⟩
  intro heq
  apply hne
  have hdata : bytesToHex iv1 ++ ':' :: bytesToHex (cEnc key iv1 text)
      = bytesToHex iv2 ++ ':' :: bytesToHex (cEnc key iv2 text) :=
    congrArg String.data heq
  have hlen : (bytesToHex iv1).length = (bytesToHex iv2).length := by
    rw [bytesToHex_length, bytesToHex_length, hiv1, hiv2]
  have hpre := (List.append_inj hdata hlen).1
  calc iv1 = hexToBytes (bytesToHex iv1) := (hexToBytes_bytesToHex iv1 hivb1).symm
    _ = hexToBytes (bytesToHex iv2) := by rw [hpre]
    _ = iv2 := hexToBytes_bytesToHex iv2 hivb2

/-- Witness for C7 at concrete inputs. -/
theorem encrypt_decrypt_roundtrip_witness :
    decryptWith dropLastCore [1] (encryptWith concatSeven [1] (List.range 16) [104, 105])
      = Except.ok [104, 105] ∧
    decryptWith dropLastCore [1] (encryptWith concatSeven [1] (List.replicate 16 0) [104, 105])
      = Except.ok [104, 105] ∧
    encryptWith concatSeven [1] (List.range 16) [104, 105]
      ≠ encryptWith concatSeven [1] (List.replicate 16 0) [104, 105] :=
  encrypt_decrypt_roundtrip concatSeven dropLastCore
    (fun k iv d => by simp [concatSeven, dropLastCore])
    [1] [104, 105] (List.range 16) (List.replicate 16 0)
    (by decide) (by decide) (by decide) (by decide) (by decide)
    (by decide) (by decide) (by decide) (by decide)

/-! ### Claim C10 -/

/-- C10: the function `encryptOptional(v)` returns `null` exactly when `v` is null,
undefined, or the empty string (the JavaScript-falsy strings), and returns
`encrypt(v)` for every other string; `decryptOptional` behaves symmetrically
over ciphertexts. -/
theorem encryptOptional_spec (cEnc cDec : List Nat → List Nat → List Nat → List Nat)
    (key iv : List Nat) :
    (∀ v : Option String, encryptOptional cEnc key iv v = none ↔ v = none ∨ v = some "") ∧
    (∀ s : String, s ≠ "" → encryptOptional cEnc key iv (some s)
      = some (encryptStr cEnc key iv s)) ∧
    (∀ h : Option String, decryptOptional cDec key h = none ↔ h = none ∨ h = some "") ∧
    (∀ h : String, h ≠ "" → decryptOptional cDec key (some h)
      = some (decryptWith cDec key h)) := by
  refine ⟨?_, ?_, ?_, ?_⟩
  · intro v
    cases v with
    | none => simp [encryptOptional]
    | some s => by_cases hs : s = "" <;> simp [encryptOptional, hs]
  · intro s hs
    simp [encryptOptional, hs]
  · intro h
    cases h with
    | none => simp [decryptOptional]
    | some s => by_cases hs : s = "" <;> simp [decryptOptional, hs]
  · intro h hh
    simp [decryptOptional, hh]

/-- Witness for C10 at concrete inputs. -/
theorem encryptOptional_spec_witness :
    encryptOptional concatSeven [1] [2] (some "x")
      = some (encryptStr concatSeven [1] [2] "x") ∧
    encryptOptional concatSeven [1] [2] (some "") = none ∧
    decryptOptional dropLastCore [1] (some "aa:bb")
      = some (decryptWith dropLastCore [1] "aa:bb") :=
  ⟨(encryptOptional_spec concatSeven dropLastCore [1] [2]).2.1 "x" (by decide),
   ((encryptOptional_spec concatSeven dropLastCore [1] [2]).1 (some "")).mpr (Or.inr rfl),
   (encryptOptional_spec concatSeven dropLastCore [1] [2]).2.2.2 "aa:bb" (by decide)⟩

/-! ### Rate-limit lemmas -/

theorem runRL_cons (t : Nat) (rest : List Nat) (st : Option RLEntry) :
    runRL (t :: rest) st
      = ((rlStep t st).1 :: (runRL rest (rlStep t st).2).1,
         (runRL rest (rlStep t st).2).2) := rfl

theorem rlStep_within (c R t : Nat) (ht : t ≤ R) (hc : c < 100) :
    rlStep t (some ⟨c, R⟩) = (true, some ⟨c + 1, R⟩) := by
  simp [rlStep, RATE_LIMIT_MAX, show ¬ R < t by omega, show ¬ 100 ≤ c by omega]

theorem rlStep_limited (c R t : Nat) (ht : t ≤ R) (hc : 100 ≤ c) :
    rlStep t (some ⟨c, R⟩) = (false, some ⟨c, R⟩) := by
  simp [rlStep, RATE_LIMIT_MAX, show ¬ R < t by omega, hc]

theorem runRL_within (ts : List Nat) (c R : Nat) (hts : ∀ t ∈ ts, t ≤ R)
    (hc : c + ts.length ≤ 100) :
    runRL ts (some ⟨c, R⟩) = (List.replicate ts.length true, some ⟨c + ts.length, R⟩) := by
  induction ts generalizing c with
  | nil => simp [runRL]
  | cons t rest ih =>
    have ht : t ≤ R := hts t (List.mem_cons_self t rest)
    have hlen : (t :: rest).length = rest.length + 1 := List.length_cons t rest
    rw [runRL_cons, rlStep_within c R t ht (by rw [hlen] at hc; omega)]
    rw [ih (c + 1) (fun x hx => hts x (List.mem_cons_of_mem _ hx)) (by rw [hlen] at hc; omega)]
    simp only [hlen, List.replicate_succ]
    have harith : c + 1 + rest.length = c + (rest.length + 1) := by omega
    rw [harith]

/-! ### Claim C6 -/

/-- C6: for a fixed `(userId, provider)` key starting from an empty store,
`checkRateLimit` returns true for the first 100 calls whose times fall within
the 60-second window opened by the first call (the first call at `t0`, then
99 more at times `≤ t0 + 60000`), returns false for the 101st call within
that window, and for any call strictly after an entry's `resetAt` the counter
is reset to 1 and the call returns true. -/
theorem checkRateLimit_window (t0 : Nat) (ts : List Nat) (hlen : ts.length = 99)
    (hin : ∀ t ∈ ts, t ≤ t0 + RATE_LIMIT_WINDOW_MS)
    (t100 : Nat) (h100 : t100 ≤ t0 + RATE_LIMIT_WINDOW_MS) :
    rlStep t0 none = (true, some ⟨1, t0 + RATE_LIMIT_WINDOW_MS⟩) ∧
    runRL ts (some ⟨1, t0 + RATE_LIMIT_WINDOW_MS⟩)
      = (List.replicate 99 true, some ⟨100, t0 + RATE_LIMIT_WINDOW_MS⟩) ∧
    (rlStep t100 (some ⟨100, t0 + RATE_LIMIT_WINDOW_MS⟩)).1 = false ∧
    (∀ (e : RLEntry) (t : Nat), e.resetAt < t →
      rlStep t (some e) = (true, some ⟨1, t + RATE_LIMIT_WINDOW_MS⟩)) := by
  refine ⟨rfl, ?_, ?_, ?_⟩
  · rw [runRL_within ts 1 (t0 + RATE_LIMIT_WINDOW_MS) hin (by omega), hlen]
  · rw [rlStep_limited 100 (t0 + RATE_LIMIT_WINDOW_MS) t100 h100 (le_refl 100)]
  · intro e t htgt
    cases e with
    | mk c R => simp [rlStep, htgt]

/-- Witness for C6: 100 calls at time 0 all pass, the 101st is refused, and a
call at time 60001 resets the window. -/
theorem checkRateLimit_window_witness :
    rlStep 0 none = (true, some ⟨1, 0 + RATE_LIMIT_WINDOW_MS⟩) ∧
    runRL (List.replicate 99 0) (some ⟨1, 0 + RATE_LIMIT_WINDOW_MS⟩)
      = (List.replicate 99 true, some ⟨100, 0 + RATE_LIMIT_WINDOW_MS⟩) ∧
    (rlStep 0 (some ⟨100, 0 + RATE_LIMIT_WINDOW_MS⟩)).1 = false ∧
    (∀ (e : RLEntry) (t : Nat), e.resetAt < t →
      rlStep t (some e) = (true, some ⟨1, t + RATE_LIMIT_WINDOW_MS⟩)) :=
  checkRateLimit_window 0 (List.replicate 99 0) (by simp)
    (fun t ht => by rw [List.eq_of_mem_replicate ht]; exact Nat.zero_le _)
    0 (Nat.zero_le _)

/-! ### Claim C2 -/

/-- C2 (claim refuted by the code): on a request carrying no authenticated
principal (absent `x-user-id` header), `getCurrentUserId` does not return
null — it falls back to the mock `"demo-user-id"` — and a data operation on
such a request proceeds to the backend (here the neon raw-SQL route answers
200 with one remote call) instead of failing with the Unauthenticated error. -/
theorem getCurrentUserId_demo_fallback :
    getCurrentUserId none = some "demo-user-id" ∧
    getCurrentUserId none ≠ none ∧
    neonSqlPOST (getCurrentUserId none) 0 none
      (some ⟨true, none, none, none, some "cs", none, none⟩)
      (some "SELECT 1") (Except.ok 1) (Except.ok ())
      = ⟨200, none, 1⟩ := by
  refine ⟨rfl, by simp [getCurrentUserId], by decide⟩

/-! ### Claim C3 -/

/-- C3: the guard `validateIntegrationAccess` fails with `INTEGRATION_NOT_FOUND` when no
record exists for the `(userId, provider)` pair and with
`INTEGRATION_INACTIVE` when the record exists with `isActive = false`; in
both cases the route handlers perform zero remote calls — the failure occurs
before any provider adapter is invoked or live connection opened (shown for
the neon raw-SQL, supabase raw-SQL and turso insert handlers). -/
theorem validateIntegrationAccess_spec (provider : String)
    (record : Option UserIntegration) (uid : Option String) (now : Nat)
    (rl : Option RLEntry) (query : Option String) (body : List (String × String))
    (backend : Except String Nat) (auditDb : Except String Unit) :
    (record = none →
      validateIntegrationAccess provider record
        = Except.error ⟨"INTEGRATION_NOT_FOUND",
            "No " ++ provider ++ " integration found for this user"⟩) ∧
    (∀ r, record = some r → r.isActive = false →
      validateIntegrationAccess provider record
        = Except.error ⟨"INTEGRATION_INACTIVE",
            provider ++ " integration is inactive"⟩) ∧
    ((∃ e, validateIntegrationAccess "neon" record = Except.error e) →
      (neonSqlPOST uid now rl record query backend auditDb).remoteCalls = 0) ∧
    ((∃ e, validateIntegrationAccess "supabase" record = Except.error e) →
      (supabaseSqlPOST uid now rl record query backend auditDb).remoteCalls = 0) ∧
    ((∃ e, validateIntegrationAccess "turso" record = Except.error e) →
      (tursoInsertPOST uid now rl record body backend auditDb).remoteCalls = 0) := by
  refine ⟨?_, ?_, ?_, ?_, ?_⟩
  · intro h
    subst h
    rfl
  · intro r hr hact
    subst hr
    simp [validateIntegrationAccess, hact]
  · rintro ⟨e, he⟩
    cases uid with
    | none => rfl
    | some u =>
      simp only [neonSqlPOST]
      cases hb : (rlStep now rl).1
      · simp [hb]
      · simp [hb, he]
  · rintro ⟨e, he⟩
    cases uid with
    | none => rfl
    | some u =>
      simp only [supabaseSqlPOST]
      cases hb : (rlStep now rl).1
      · simp [hb]
      · simp [hb, he]
  · rintro ⟨e, he⟩
    cases uid with
    | none => rfl
    | some u =>
      simp only [tursoInsertPOST]
      simp [he]

/-- Witness for C3: no record for the pair gives `INTEGRATION_NOT_FOUND` and
zero remote calls on the neon route. -/
theorem validateIntegrationAccess_spec_witness :
    validateIntegrationAccess "neon" none
      = Except.error ⟨"INTEGRATION_NOT_FOUND",
          "No " ++ "neon" ++ " integration found for this user"⟩ ∧
    (neonSqlPOST (some "u") 0 none none (some "SELECT 1")
      (Except.ok 1) (Except.ok ())).remoteCalls = 0 :=
  ⟨(validateIntegrationAccess_spec "neon" none (some "u") 0 none (some "SELECT 1")
      [] (Except.ok 1) (Except.ok ())).1 rfl,
   (validateIntegrationAccess_spec "neon" none (some "u") 0 none (some "SELECT 1")
      [] (Except.ok 1) (Except.ok ())).2.2.1 ⟨_, rfl⟩⟩

/-! ### Claim C4 -/

/-- C4 counterexample: not every data operation checks the rate limit — the
turso row-insert handler goes identity → authorization with no rate-limit
step: with a limiter entry already at the 100-call cap inside its window
(so `checkRateLimit` would deny), the insert still performs its remote call
and succeeds. -/
theorem turso_insert_skips_rate_limit :
    (rlStep 1000 (some ⟨100, 60000⟩)).1 = false ∧
    tursoInsertPOST (some "u") 1000 (some ⟨100, 60000⟩)
      (some ⟨true, none, none, none, none, some "url", some "tok"⟩)
      [("name", "a")] (Except.ok 1) (Except.ok ())
      = ⟨200, none, 1⟩ := by
  constructor <;> decide

/-- C4 (amended): handlers that guard do so in the order identity, then rate
limit, then authorization, before any adapter call — shown on the neon
raw-SQL handler: a missing identity answers 401 with zero remote calls
whatever the other inputs; with identity present a denying limiter answers
429 with zero remote calls regardless of the credential record (rate limit
precedes authorization); and an authorization failure leaves zero remote
calls.  Several mutation handlers omit the rate-limit step entirely (see the
counterexample). -/
theorem neon_guard_ordering (now : Nat) (rl : Option RLEntry)
    (record : Option UserIntegration) (query : Option String)
    (backend : Except String Nat) (auditDb : Except String Unit) (u : String) :
    neonSqlPOST none now rl record query backend auditDb
      = ⟨401, some "UNAUTHORIZED", 0⟩ ∧
    ((rlStep now rl).1 = false →
      neonSqlPOST (some u) now rl record query backend auditDb
        = ⟨429, some "RATE_LIMITED", 0⟩) ∧
    ((∃ e, validateIntegrationAccess "neon" record = Except.error e) →
      (neonSqlPOST (some u) now rl record query backend auditDb).remoteCalls = 0) := by
  refine ⟨rfl, ?_, ?_⟩
  · intro hb
    simp [neonSqlPOST, hb]
  · rintro ⟨e, he⟩
    simp only [neonSqlPOST]
    cases hb : (rlStep now rl).1
    · simp [hb]
    · simp [hb, he]

/-- Witness for C4's amended theorem: a denying limiter state yields 429 with
zero remote calls even though an active record exists. -/
theorem neon_guard_ordering_witness :
    neonSqlPOST (some "u") 1000 (some ⟨100, 60000⟩)
      (some ⟨true, none, none, none, some "cs", none, none⟩)
      (some "SELECT 1") (Except.ok 1) (Except.ok ())
      = ⟨429, some "RATE_LIMITED", 0⟩ :=
  (neon_guard_ordering 1000 (some ⟨100, 60000⟩)
    (some ⟨true, none, none, none, some "cs", none, none⟩)
    (some "SELECT 1") (Except.ok 1) (Except.ok ()) "u").2.1 (by decide)

/-! ### Claim C5 -/

/-- C5 counterexample: on a state mismatch the callback does redirect with
invalid_state and performs no token exchange, but the state cookie is NOT
cleared — it survives the failure — refuting the part of the claim that says
the cookie is cleared on this failure path. -/
theorem oauth_callback_cookie_kept_on_mismatch :
    convexCallbackGET none (some "c") (some "b") (some "a") (some "u")
      (Except.ok ()) (Except.ok ())
      = ⟨some "invalid_state", 0, some "a"⟩ ∧
    (convexCallbackGET none (some "c") (some "b") (some "a") (some "u")
      (Except.ok ()) (Except.ok ())).cookieAfter ≠ none := by
  constructor <;> decide

/-- C5 (amended): a returned state not equal to the stored cookie value, or a
missing/empty cookie, makes the callback fail with invalid_state and perform
zero token-exchange calls; the state cookie is cleared on the success path
only — on the mismatch failure it is left in place. -/
theorem oauth_callback_state_check (code st stored : String) (uid : String)
    (exchange upsert : Except String Unit) :
    convexCallbackGET none (some code) (some st) none (some uid) exchange upsert
      = ⟨some "invalid_state", 0, none⟩ ∧
    (stored = "" ∨ stored ≠ st →
      convexCallbackGET none (some code) (some st) (some stored) (some uid)
        exchange upsert
        = ⟨some "invalid_state", 0, some stored⟩) ∧
    (stored ≠ "" → stored = st → exchange = Except.ok () → upsert = Except.ok () →
      convexCallbackGET none (some code) (some st) (some stored) (some uid)
        exchange upsert
        = ⟨none, 1, none⟩) := by
  refine ⟨rfl, ?_, ?_⟩
  · intro h
    simp only [convexCallbackGET]
    rw [if_pos h]
  · intro h1 h2 he hu
    subst h2
    subst he
    subst hu
    simp only [convexCallbackGET]
    rw [if_neg (by simp [h1])]

/-- Witness for C5's amended theorem: a mismatching state leaves the cookie,
a matching one clears it and performs the exchange. -/
theorem oauth_callback_state_check_witness :
    convexCallbackGET none (some "c") (some "b") (some "a") (some "u")
      (Except.error "e") (Except.ok ())
      = ⟨some "invalid_state", 0, some "a"⟩ ∧
    convexCallbackGET none (some "c") (some "s") (some "s") (some "u")
      (Except.ok ()) (Except.ok ())
      = ⟨none, 1, none⟩ :=
  ⟨(oauth_callback_state_check "c" "b" "a" "u" (Except.error "e") (Except.ok ())).2.1
      (Or.inr (by decide)),
   (oauth_callback_state_check "c" "s" "s" "u" (Except.ok ()) (Except.ok ())).2.2
      (by decide) rfl rfl rfl⟩

/-! ### Claim C8 -/

/-- C8 counterexample: a caller-supplied `page = 0` (page below 1) is not treated
as page 1 — it is used as parsed, so the offset sent to the backend is
`(0-1)*25 = -25` and the effective page stays 0. -/
theorem turso_page_zero_not_normalized :
    tursoQueryParams (some 0) (some 25) = (0, 25, -25) ∧
    (tursoQueryParams (some 0) (some 25)).1 ≠ 1 := by
  constructor <;> decide

/-- C8 (amended): for every queryRows request on the turso route, the
effective limit sent to the backend is `min(limit,100) ≤ 100` and the row
offset equals `(page-1)*limit`; but the page value is used exactly as
supplied (default 1) — a caller-supplied `page < 1` is NOT normalized to 1. -/
theorem tursoQueryParams_spec (pageParam limitParam : Option Int) :
    (tursoQueryParams pageParam limitParam).2.1 ≤ 100 ∧
    (tursoQueryParams pageParam limitParam).2.2
      = ((tursoQueryParams pageParam limitParam).1 - 1)
        * (tursoQueryParams pageParam limitParam).2.1 ∧
    (tursoQueryParams pageParam limitParam).1 = pageParam.getD 1 := by
  refine ⟨min_le_right _ _, rfl, rfl⟩

/-! ### Claim C9 -/

/-- C9: a failure of the audit-log append never propagates to the caller and
never changes the operation's primary result: `logIntegrationOperation`
returns ok whatever the underlying db outcome, and the neon and supabase
raw-SQL handlers return the same envelope whether the audit write succeeds
or throws. -/
theorem audit_failure_never_propagates (r r1 r2 : Except String Unit)
    (uid : Option String) (now : Nat) (rl : Option RLEntry)
    (record : Option UserIntegration) (query : Option String)
    (backend : Except String Nat) :
    logIntegrationOperation r = Except.ok () ∧
    neonSqlPOST uid now rl record query backend r1
      = neonSqlPOST uid now rl record query backend r2 ∧
    supabaseSqlPOST uid now rl record query backend r1
      = supabaseSqlPOST uid now rl record query backend r2 := by
  have hok : ∀ x : Except String Unit, logIntegrationOperation x = Except.ok () := by
    intro x
    cases x <;> rfl
  refine ⟨hok r, ?_, ?_⟩
  · simp only [neonSqlPOST, hok]
  · simp only [supabaseSqlPOST, hok]

/-! ### Claim C1 -/

/-- C1 counterexample: the neon relational raw-query route performs no
write-gating at all — a statement whose trimmed text does not begin with
SELECT, WITH or EXPLAIN, executed while the stored record carries no
service-level secret, is still sent to the backend (one remote call) and
succeeds, instead of returning Unauthorized with zero remote calls. -/
theorem neon_raw_write_executes_without_gate :
    isWriteQuery ((jsTrim "DROP TABLE users".data).map Char.toUpper) = true ∧
    neonSqlPOST (some "u") 0 none
      (some ⟨true, none, none, none, some "cs", none, none⟩)
      (some "DROP TABLE users") (Except.ok 0) (Except.ok ())
      = ⟨200, none, 1⟩ := by
  constructor <;> decide

/-- C1 (amended): the supabase relational adapter does enforce write-gating:
`runRawQuery` with a statement whose trimmed upper-cased text begins with
none of SELECT, WITH, EXPLAIN, while the stored credential record carries
configured (non-falsy) URL and anon-key fields but lacks the service-level
secret, returns the Unauthorized error (403) and performs zero remote calls
(a record with unconfigured URL/anon-key instead fails at client
construction, caught as 500, still with zero remote calls).  The neon
relational route has no such gate (see the counterexample). -/
theorem supabase_raw_write_gating (u : String) (now : Nat) (rl : Option RLEntry)
    (r : UserIntegration) (q : String) (backend : Except String Nat)
    (auditDb : Except String Unit)
    (hrl : (rlStep now rl).1 = true)
    (hact : r.isActive = true)
    (hkey : r.supabaseServiceKey = none)
    (hurl : jsFalsyStr r.supabaseUrl = false)
    (hanon : jsFalsyStr r.supabaseAnonKey = false)
    (hq : jsTrim q.data ≠ [])
    (hw : isWriteQuery ((jsTrim q.data).map Char.toUpper) = true) :
    supabaseSqlPOST (some u) now rl (some r) (some q) backend auditDb
      = ⟨403, some "UNAUTHORIZED", 0⟩ := by
  simp [supabaseSqlPOST, validateIntegrationAccess, hrl, hact, hkey, hurl, hanon, hq, hw]

/-- Witness for C1's amended theorem at a concrete DDL statement. -/
theorem supabase_raw_write_gating_witness :
    supabaseSqlPOST (some "u") 0 none
      (some ⟨true, some "url", some "anon", none, none, none, none⟩)
      (some "DROP TABLE x") (Except.ok 0) (Except.ok ())
      = ⟨403, some "UNAUTHORIZED", 0⟩ :=
  supabase_raw_write_gating "u" 0 none
    ⟨true, some "url", some "anon", none, none, none, none⟩
    "DROP TABLE x" (Except.ok 0) (Except.ok ())
    (by decide) rfl rfl (by decide) (by decide) (by decide) (by decide)
